import Mathlib

/-!
Shallow embedding of the vts-mapproxy raster-warping operations and generator
lifecycle, verified against its natural-language specification.

The embedding follows the C++ sources:
 * warp operations (`allocateMat`, `warpImage`, `warpMask`, `warpDetailMask`,
   `warp`) from the gdalsupport operations translation unit;
 * `TmsRasterSynthetic::changed_impl` from the tms definition translation unit;
 * `GeodataMesh` constructor, metadata (de)serialization and
   `generateFile_impl`, plus `GeodataSemanticTiled::generateMetatile` and
   `generateFile_impl`, from the geodata generator translation units.

External collaborators (GDAL datasets, OpenCV, jsoncpp, the shared-memory
arena) are modelled as explicit environments; control flow, error raising and
the order of side effects mirror the sources statement by statement.  Each
operation additionally returns the list of externally visible events
(dataset-cache resolutions, warps, sink writes) so that ordering claims
("fails before resolving the mask dataset") are expressible.
-/

deriving instance DecidableEq for Except

namespace MapProxy

/-! ## OpenCV matrix model -/

/-- Pixel depth of a cv matrix element (only the depths the sources use). -/
inductive CvDepth where
  | u8
  | f64
deriving DecidableEq, Repr

/-- Size in bytes of a single channel of the given depth (CV_ELEM_SIZE1). -/
def CvDepth.elemSize1 : CvDepth → Nat
  | .u8 => 1
  | .f64 => 8

/-- A cv matrix type: depth plus channel count (CV_MAKETYPE). -/
structure CvType where
  depth : CvDepth
  channels : Nat
deriving DecidableEq, Repr

/-- CV_ELEM_SIZE: bytes per pixel = per-channel size times channel count. -/
def CvType.elemSize (t : CvType) : Nat :=
  t.depth.elemSize1 * t.channels

/-- CV_MAKETYPE(depth, cn). -/
def CV_MAKETYPE (d : CvDepth) (cn : Nat) : CvType := ⟨d, cn⟩

/-- math::Size2: target pixel size of a warp. -/
structure Size2 where
  width : Nat
  height : Nat
deriving DecidableEq, Repr

/-- math::area(size) = width * height. -/
def Size2.area (s : Size2) : Nat := s.width * s.height

/-- sizeof(cv::Mat): size of the matrix header placed in front of the pixel
data inside the shared arena block.  The concrete value is platform
dependent; the claims only relate block sizes to it symbolically, so any
fixed positive constant is faithful. -/
def sizeofCvMat : Nat := 96

/-- A cv::Mat constructed inside the shared arena.  `blockSize` records the
size in bytes of the single contiguous arena block that `allocateMat`
obtained from the managed buffer for header plus pixel storage. -/
structure CvMat where
  rows : Nat
  cols : Nat
  matType : CvType
  blockSize : Nat
deriving DecidableEq, Repr

/-- allocateMat: computes dataSize = area(size) * CV_ELEM_SIZE(type) and
matSize = sizeof(cv::Mat) + dataSize, allocates one raw block of matSize
bytes in the managed buffer and placement-constructs the matrix there with
`size.height` rows, `size.width` cols and the pixel data directly behind the
header. -/
def allocateMat (size : Size2) (type : CvType) : CvMat :=
  let dataSize := size.area * type.elemSize
  let matSize := sizeofCvMat + dataSize
  { rows := size.height, cols := size.width, matType := type
    , blockSize := matSize }

/-! ## Warp environment

`geo::GeoDataset` warping is external (GDAL); it is modelled as an
environment assigning to every dataset path the validity mask its warp into
the (fixed, per-request) target grid produces, and the channel count of its
warped pixel data.  A validity mask is the finite set of valid pixel
coordinates; `applyMask` intersects masks. -/

/-- geo::GeoDataset::Resampling (the methods relevant to the sources). -/
inductive Resampling where
  | nearest
  | average
  | cubic
  | lanczos
deriving DecidableEq, Repr

/-- A pixel coordinate of the target grid. -/
abbrev Pix := Nat × Nat

/-- Externally visible effects of a warp operation, in order of occurrence. -/
inductive WarpEv where
  /-- cache.dataset(path): resolve a dataset through the dataset cache. -/
  | resolve (path : String)
  /-- cache.mask(path): resolve a dataset opened with mask support. -/
  | resolveMask (path : String)
  /-- src.warpInto(dst, resampling) after deriveInMemory. -/
  | warpInto (path : String) (resampling : Resampling)
  /-- dst.applyMask(...): intersect destination validity mask. -/
  | applyMask (path : String)
deriving DecidableEq, Repr

/-- Errors thrown by the warp operations. -/
inductive WarpErr where
  | notFound (msg : String)
  | internalError (msg : String)
deriving DecidableEq, Repr

/-- Environment giving the semantics of the external geo library for one
fixed target (srs, extents, size): per dataset path and resampling method,
the validity mask produced by warping it into the target, the channel count
of the warped pixel data, the matrix type of a warped mask dataset's pixel
data, and the sizing rule of the rastermask-to-cvmat conversion. -/
structure GeoEnv where
  /-- Validity mask of `deriveInMemory` + `warpInto` for a dataset path. -/
  warped : String → Resampling → Finset Pix
  /-- Channel count of dst.cdata() for the warped primary dataset. -/
  cdataChannels : String → Nat
  /-- Matrix type of dstMask.cdata() for a dataset resolved via cache.mask. -/
  maskCdataType : String → CvType
  /-- maskMatSize: dimensions of the compact cvmat for a validity mask. -/
  maskMatSize : Finset Pix → Size2
  /-- maskMatDataType: matrix type of the compact cvmat for a validity mask. -/
  maskMatDataType : Finset Pix → CvType
  /-- Modelled from the spec: a warped mask dataset's pixel data "is
  guaranteed to have single (double) channel"; the guarantee lives in the
  external geo library, the sources rely on it by comment. -/
  maskSingleDouble : ∀ path, maskCdataType path = ⟨CvDepth.f64, 1⟩

/-! ## Warp operations -/

/-- warpImage: resolves and warps the primary dataset, throws
NotFound("No valid data.") if its validity mask is empty, otherwise — when a
mask dataset is given — resolves and warps it with the same geometry and
resampling and intersects its validity mask into the destination, throws
NotFound("No valid data.") if the resulting mask is empty, and finally
converts the destination pixel data to 8 bits per channel with the source's
channel count into a freshly allocated arena matrix of the target size.
Returns the event trace together with the result. -/
def warpImage (env : GeoEnv) (dataset : String)
    (maskDataset : Option String) (size : Size2)
    (resampling : Resampling) : List WarpEv × Except WarpErr CvMat :=
  let evs := [WarpEv.resolve dataset, WarpEv.warpInto dataset resampling]
  let dstMask := env.warped dataset resampling
  if dstMask = ∅ then
    (evs, .error (.notFound "No valid data."))
  else
    let masked : List WarpEv × Finset Pix :=
      match maskDataset with
      | none => ([], dstMask)
      | some md =>
          ([WarpEv.resolve md, WarpEv.warpInto md resampling
            , WarpEv.applyMask md]
           , dstMask ∩ env.warped md resampling)
    let evs := evs ++ masked.1
    if masked.2 = ∅ then
      (evs, .error (.notFound "No valid data."))
    else
      let type := CV_MAKETYPE .u8 (env.cdataChannels dataset)
      (evs, .ok (allocateMat size type))

/-- warpMask: identical pipeline to `warpImage`, but the output is the
compact validity-mask matrix whose dimensions and type come from the
rastermask sizing rule applied to the final destination mask. -/
def warpMask (env : GeoEnv) (dataset : String)
    (maskDataset : Option String) (size : Size2)
    (resampling : Resampling) : List WarpEv × Except WarpErr CvMat :=
  let evs := [WarpEv.resolve dataset, WarpEv.warpInto dataset resampling]
  let dstMask := env.warped dataset resampling
  if dstMask = ∅ then
    (evs, .error (.notFound "No valid data."))
  else
    let masked : List WarpEv × Finset Pix :=
      match maskDataset with
      | none => ([], dstMask)
      | some md =>
          ([WarpEv.resolve md, WarpEv.warpInto md resampling
            , WarpEv.applyMask md]
           , dstMask ∩ env.warped md resampling)
    let evs := evs ++ masked.1
    if masked.2 = ∅ then
      (evs, .error (.notFound "No valid data."))
    else
      (evs, .ok (allocateMat (env.maskMatSize masked.2)
                  (env.maskMatDataType masked.2)))

/-- warpDetailMask: without a mask dataset it throws
InternalError("Unimplemented: TODO: generate metatile from data.") before
touching the primary dataset; with one it resolves the mask dataset (opened
with mask support), warps it with the averaging resampling method, and
copies its pixel data into an arena matrix of the target size with the
warped data's own matrix type. -/
def warpDetailMask (env : GeoEnv) (dataset : String)
    (maskDataset : Option String) (size : Size2)
    : List WarpEv × Except WarpErr CvMat :=
  match maskDataset with
  | none =>
      ([], .error (.internalError
          "Unimplemented: TODO: generate metatile from data."))
  | some md =>
      let evs := [WarpEv.resolveMask md, WarpEv.warpInto md .average]
      (evs, .ok (allocateMat size (env.maskCdataType md)))

/-! ## Warp dispatcher -/

namespace GdalWarper

/-- Modelled from the spec: RasterRequest.operation ranges over
{image, mask, detailMask, custom}; the enum declaration itself is not among
the provided sources. -/
inductive Operation where
  | image
  | mask
  | detailMask
  | custom
deriving DecidableEq, Repr

/-- GdalWarper::RasterRequest (target srs/extents are absorbed into the
environment, which is fixed per request). -/
structure RasterRequest where
  operation : Operation
  dataset : String
  mask : Option String
  size : Size2
  resampling : Resampling
deriving Repr

end GdalWarper

/-- Outcome of the warp dispatcher: either one of the three operations ran
to a result (or a thrown warp error), or control reached the statement after
the switch — a bare `throw;` with no active exception, i.e. std::terminate. -/
inductive WarpOutcome where
  | result (evs : List WarpEv) (res : Except WarpErr CvMat)
  /-- The bare rethrow after the switch: no exception is active, so the
  process terminates. -/
  | terminate
deriving DecidableEq, Repr

/-- warp: dispatches on the request operation to warpImage / warpMask /
warpDetailMask (each returning from inside the switch); if the switch falls
through, the statement after it is a bare `throw;`. -/
def warp (env : GeoEnv) (req : GdalWarper.RasterRequest) : WarpOutcome :=
  match req.operation with
  | .image =>
      let r := warpImage env req.dataset req.mask req.size req.resampling
      .result r.1 r.2
  | .mask =>
      let r := warpMask env req.dataset req.mask req.size req.resampling
      .result r.1 r.2
  | .detailMask =>
      let r := warpDetailMask env req.dataset req.mask req.size
      .result r.1 r.2
  | .custom => .terminate

/-! ## Resource change classification (TmsRasterSynthetic) -/

/-- resource::Changed: classification of a definition change. -/
inductive Changed where
  | yes
  | safely
  | no
deriving DecidableEq, Repr

/-- RasterFormat of a tms resource definition. -/
inductive RasterFormat where
  | jpg
  | png
deriving DecidableEq, Repr

/-- resource::TmsRasterSynthetic definition payload: the common tms fields
(of abstract type `C`, declared in a base class outside these sources), an
optional mask (payload type `M`) and an output format. -/
structure TmsRasterSynthetic (C M : Type) where
  common : C
  mask : Option M
  format : RasterFormat

namespace TmsRasterSynthetic

/-- TmsRasterSynthetic::changed_impl: mask difference is an unsafe change,
then a format difference is a safe change, otherwise the decision is
delegated to TmsCommon::changed_impl (here the abstract `commonChanged`,
whose implementation is outside these sources). -/
def changed_impl {C M : Type} [DecidableEq M]
    (commonChanged : C → C → Changed)
    (self other : TmsRasterSynthetic C M) : Changed :=
  if self.mask ≠ other.mask then .yes
  else if self.format ≠ other.format then .safely
  else commonChanged self.common other.common

end TmsRasterSynthetic

/-! ## GeodataMesh metadata (de)serialization -/

namespace GeodataMesh

/-- Stand-in for vr::Position; its JSON form (vr::asJson /
vr::positionFromJson) is external and round-trips, so the payload is kept
abstract. -/
structure VrPosition where
  raw : List ℚ
deriving DecidableEq, Repr

/-- Default-constructed position (used when the parsed document has no
"position" member). -/
def defaultPosition : VrPosition := ⟨[]⟩

/-- math::Extents3: ll and ur corner, three double components each (doubles
modelled as rationals; (de)serialization only stores and retrieves them). -/
structure Extents3 where
  ll0 : ℚ
  ll1 : ℚ
  ll2 : ℚ
  ur0 : ℚ
  ur1 : ℚ
  ur2 : ℚ
deriving DecidableEq, Repr

/-- GeodataMesh::Metadata: extents of the generated output, byte size of the
written artifact (std::size_t, i.e. an unsigned machine word) and the
introspection position. -/
structure Metadata where
  extents : Extents3
  fileSize : Nat
  position : VrPosition
deriving DecidableEq, Repr

/-- In-memory Json::Value model: null, numbers, arrays, objects, plus the
opaque value produced by vr::asJson for a position. -/
inductive Json where
  | null
  | num (q : ℚ)
  | arr (xs : List Json)
  | obj (fields : List (String × Json))
  | pos (p : VrPosition)

/-- Json::Value::operator[] on an object: member lookup, null when the
member is absent. -/
def getMember : Json → String → Json
  | .obj fields, key => (fields.lookup key).getD .null
  | _, _ => .null

/-- Json::Value::isMember. -/
def hasMember : Json → String → Bool
  | .obj fields, key => (fields.lookup key).isSome
  | _, _ => false

/-- Json::check(value, arrayValue): throws unless the value is an array. -/
def checkArray : Json → Except String (List Json)
  | .arr xs => .ok xs
  | _ => .error "expected array"

/-- Json::Value::asDouble: numbers convert to themselves, null to 0.0,
anything else throws. -/
def asDouble : Json → Except String ℚ
  | .num q => .ok q
  | .null => .ok 0
  | _ => .error "not convertible to double"

/-- `int(x)` for x : std::size_t — the C++ conversion to a 32-bit signed
int, modelled as two's-complement wrap-around. -/
def intOfSizeT (n : Nat) : Int :=
  let r : Nat := n % 2 ^ 32
  if r < 2 ^ 31 then (r : Int) else (r : Int) - 2 ^ 32

/-- Json::get(size_t-field, value, key): requires the member to be a
non-negative integral number (reading into std::size_t). -/
def getSizeT (v : Json) (key : String) : Except String Nat :=
  match getMember v key with
  | .num q =>
      if q.den = 1 ∧ 0 ≤ q.num then .ok q.num.toNat
      else .error "not convertible to size_t"
  | _ => .error "missing or non-numeric member"

/-- vr::positionFromJson. -/
def positionFromJson : Json → Except String VrPosition
  | .pos p => .ok p
  | _ => .error "bad position"

/-- build(Json::Value&, const GeodataMesh::Metadata&): extents as a
six-element array ll0..ll2, ur0..ur2, fileSize stored through a cast to
int, position via vr::asJson. -/
def build (m : Metadata) : Json :=
  Json.obj
    [ ("extents", Json.arr
        [ .num m.extents.ll0, .num m.extents.ll1, .num m.extents.ll2
          , .num m.extents.ur0, .num m.extents.ur1, .num m.extents.ur2 ])
      , ("fileSize", Json.num ((intOfSizeT m.fileSize : Int) : ℚ))
      , ("position", Json.pos m.position) ]

/-- parse(GeodataMesh::Metadata&, const Json::Value&): checks the extents
array (out-of-range indices read as null, i.e. 0.0), reads fileSize into a
size_t, and reads the position only when the member is present (otherwise
the default-constructed position stands). -/
def parse (v : Json) : Except String Metadata := do
  let xs ← checkArray (getMember v "extents")
  let ll0 ← asDouble (xs.getD 0 .null)
  let ll1 ← asDouble (xs.getD 1 .null)
  let ll2 ← asDouble (xs.getD 2 .null)
  let ur0 ← asDouble (xs.getD 3 .null)
  let ur1 ← asDouble (xs.getD 4 .null)
  let ur2 ← asDouble (xs.getD 5 .null)
  let fileSize ← getSizeT v "fileSize"
  let position ←
    if hasMember v "position" then positionFromJson (getMember v "position")
    else pure defaultPosition
  return { extents := ⟨ll0, ll1, ll2, ur0, ur1, ur2⟩
           , fileSize := fileSize, position := position }

end GeodataMesh

/-! ## Generator readiness state and the GeodataMesh constructor -/

/-- Generator readiness states. -/
inductive GenState where
  | unprepared
  | preparing
  | ready
  | error
deriving DecidableEq, Repr

namespace GeodataMesh

/-- Environment of the GeodataMesh constructor: whether a change is
enforced (changeEnforced()), the result of loading metadata.json (none when
loadMetadata throws), and the size of the cached artifact file at dataPath_
(none when fs::file_size throws, e.g. the file is missing). -/
structure CtorEnv where
  changeEnforced : Bool
  loadMetadata : Option Metadata
  dataFileSize : Option Nat

/-- Readiness state established by the GeodataMesh constructor: with an
enforced change the generator is left not ready; otherwise the persisted
metadata is loaded and, when the recorded fileSize equals the actual size
of the cached artifact, makeReady() is called; any exception in that block
(unreadable metadata, unreadable artifact) leaves the generator not
ready. -/
def ctorState (env : CtorEnv) : GenState :=
  if env.changeEnforced then .unprepared
  else
    match env.loadMetadata with
    | none => .unprepared
    | some metadata =>
        match env.dataFileSize with
        | none => .unprepared
        | some actualSize =>
            if actualSize = metadata.fileSize then .ready else .unprepared

end GeodataMesh

/-! ## Metatile generation (GeodataSemanticTiled) -/

/-- vts::TileId. -/
structure TileId where
  lod : Nat
  x : Nat
  y : Nat
deriving DecidableEq, Repr

namespace GeodataSemanticTiled

/-- Externally visible events of generateMetatile, in order. -/
inductive MetaEv where
  /-- sink.checkAborted(). -/
  | checkAborted
  /-- checkAborted raised RequestAborted. -/
  | abortedRaise
  /-- sink.error(NotFound(msg)). -/
  | sinkError (msg : String)
  /-- metatileFromDem(...): the actual metatile computation (DEM warps). -/
  | metatileFromDem
  /-- sink.content(...). -/
  | sinkContent
deriving DecidableEq, Repr

/-- Environment of generateMetatile: whether the sink was aborted and the
metatile-presence query of the delivery tile index (index_->meta). -/
structure MetaEnv where
  aborted : Bool
  metaIndex : TileId → Bool

/-- GeodataSemanticTiled::generateMetatile: checks for abort, then delivers
NotFound("Metatile not found.") and returns when the tile id has no
metatile in the tile index, and only otherwise computes the metatile from
the DEM and writes it to the sink. -/
def generateMetatile (env : MetaEnv) (tileId : TileId) : List MetaEv :=
  if env.aborted then [.checkAborted, .abortedRaise]
  else if !env.metaIndex tileId then
    [.checkAborted, .sinkError "Metatile not found."]
  else
    [.checkAborted, .metatileFromDem, .sinkContent]

end GeodataSemanticTiled

/-! ## File-request routing (generateFile_impl) -/

/-- GeodataFileInfo::Type.  Modelled from the spec: file kind ∈ {primary
content (geo), metatile, map-configuration, free-layer definition, style,
support, registry}, plus the unknown kind for unclassified paths; the enum
declaration is not among the provided sources, the switch cases are. -/
inductive GFType where
  | geo
  | metatile
  | config
  | definition
  | style
  | support
  | registry
  | unknown
deriving DecidableEq, Repr

/-- Immediate responses written to the sink by generateFile_impl. -/
inductive SinkAct where
  /-- sink.content(...) with a synchronously built or opened body. -/
  | content
  /-- sink.error(NotFound("Not Found.")). -/
  | errorNotFound (msg : String)
deriving DecidableEq, Repr

/-- The deferred computations a returned non-empty Task performs. -/
inductive DeferredTask where
  | geodata
  | metatile
deriving DecidableEq, Repr

namespace GeodataSemanticTiled

/-- GeodataSemanticTiled::generateFile_impl: geo and metatile return a
non-empty Task capturing the respective computation; config, definition,
support, registry and style are answered synchronously on the sink (style
from the internal default or the configured external file — both
immediate); anything else gets NotFound("Not Found."); in all synchronous
cases the returned Task is empty. -/
def generateFile (styleFromFile : Bool) (t : GFType)
    : List SinkAct × Option DeferredTask :=
  match t with
  | .geo => ([], some .geodata)
  | .metatile => ([], some .metatile)
  | .config => ([.content], none)
  | .definition => ([.content], none)
  | .support => ([.content], none)
  | .registry => ([.content], none)
  | .style => if styleFromFile then ([.content], none) else ([.content], none)
  | .unknown => ([.errorNotFound "Not Found."], none)

end GeodataSemanticTiled

namespace GeodataMesh

/-- GeodataMesh::generateFile_impl: same routing as the tiled generator but
with no metatile case — a metatile request falls into the default branch
and gets NotFound("Not Found."). -/
def generateFile (styleFromFile : Bool) (t : GFType)
    : List SinkAct × Option DeferredTask :=
  match t with
  | .geo => ([], some .geodata)
  | .config => ([.content], none)
  | .definition => ([.content], none)
  | .support => ([.content], none)
  | .registry => ([.content], none)
  | .style => if styleFromFile then ([.content], none) else ([.content], none)
  | .metatile => ([.errorNotFound "Not Found."], none)
  | .unknown => ([.errorNotFound "Not Found."], none)

end GeodataMesh

/-! ## Concrete fixtures used to evaluate the development -/

/-- Concrete warp environment: dataset "a" warps to the nonempty validity
mask {(0,0)}, every other dataset to the empty mask; warped pixel data has
three channels. -/
def envW : GeoEnv where
  warped := fun path _ => if path = "a" then {((0 : Nat), (0 : Nat))} else ∅
  cdataChannels := fun _ => 3
  maskCdataType := fun _ => ⟨.f64, 1⟩
  maskMatSize := fun _ => ⟨1, 1⟩
  maskMatDataType := fun _ => ⟨.u8, 1⟩
  maskSingleDouble := fun _ => rfl

/-- Concrete raster requests for each operation. -/
def reqImageW : GdalWarper.RasterRequest := ⟨.image, "a", none, ⟨2, 2⟩, .nearest⟩

def reqMaskW : GdalWarper.RasterRequest := ⟨.mask, "a", none, ⟨2, 2⟩, .nearest⟩

def reqDetailW : GdalWarper.RasterRequest :=
  ⟨.detailMask, "a", some "m", ⟨2, 2⟩, .cubic⟩

def reqCustomW : GdalWarper.RasterRequest :=
  ⟨.custom, "a", none, ⟨2, 2⟩, .nearest⟩

/-- Concrete metatile environment: not aborted, empty tile index. -/
def metaEnvW : GeodataSemanticTiled.MetaEnv where
  aborted := false
  metaIndex := fun _ => false

/-- Concrete tms definitions over trivial common part and Nat mask payload. -/
def tmsA : TmsRasterSynthetic Unit Nat := ⟨(), some 1, .jpg⟩

def tmsB : TmsRasterSynthetic Unit Nat := ⟨(), none, .jpg⟩

def tmsC : TmsRasterSynthetic Unit Nat := ⟨(), some 1, .png⟩

/-- Trivial common-part classification. -/
def commonNo : Unit → Unit → Changed := fun _ _ => .no

/-- Concrete metadata value with a fileSize exceeding the signed-int range
(a 4 GiB artifact). -/
def metaBig : GeodataMesh.Metadata :=
  ⟨⟨0, 0, 0, 0, 0, 0⟩, 2 ^ 32, ⟨[]⟩⟩

/-- Concrete metadata value whose fileSize is representable as signed int. -/
def metaSmall : GeodataMesh.Metadata :=
  ⟨⟨-1, 0, 1/2, 1, 2, 3⟩, 12345, ⟨[7]⟩⟩

/-! ## Claim theorems -/

/-- C1: for every image or mask warp, if the validity mask of the warped
primary dataset is empty, the operation fails with NotFound before the
optional mask dataset is resolved or warped (the event trace ends with the
primary warp); and if the validity mask is empty after the mask dataset has
been applied, the operation also fails with NotFound. -/
theorem warp_empty_validity_mask_not_found
    (env : GeoEnv) (ds md : String) (mdOpt : Option String)
    (sz : Size2) (rs : Resampling) :
    (env.warped ds rs = ∅ →
      warpImage env ds mdOpt sz rs
        = ([.resolve ds, .warpInto ds rs]
           , .error (.notFound "No valid data."))
      ∧ warpMask env ds mdOpt sz rs
        = ([.resolve ds, .warpInto ds rs]
           , .error (.notFound "No valid data.")))
    ∧ (env.warped ds rs ≠ ∅ →
       env.warped ds rs ∩ env.warped md rs = ∅ →
      (warpImage env ds (some md) sz rs).2
        = .error (.notFound "No valid data.")
      ∧ (warpMask env ds (some md) sz rs).2
        = .error (.notFound "No valid data.")) := by
  constructor
  · intro h
    constructor
    · simp [warpImage, h]
    · simp [warpMask, h]
  · intro h1 h2
    constructor
    · simp [warpImage, h1, h2]
    · simp [warpMask, h1, h2]

/-- Witness for C1: in the concrete environment, warping primary dataset
"b" (empty validity mask) fails before touching mask dataset "a"; warping
primary dataset "a" (nonempty mask) masked with "b" (empty mask) fails
after masking. -/
theorem warp_empty_validity_mask_not_found_witness :
    (warpImage envW "b" (some "a") ⟨2, 2⟩ .nearest
      = ([.resolve "b", .warpInto "b" .nearest]
         , .error (.notFound "No valid data.")))
    ∧ (warpImage envW "a" (some "b") ⟨2, 2⟩ .nearest).2
        = .error (.notFound "No valid data.") :=
  ⟨((warp_empty_validity_mask_not_found envW "b" "a" (some "a")
      ⟨2, 2⟩ .nearest).1 (by decide)).1
   , ((warp_empty_validity_mask_not_found envW "a" "b" (some "b")
      ⟨2, 2⟩ .nearest).2 (by decide) (by decide)).1⟩

/-- C2: a detail-mask warp without a mask dataset always fails with the
unimplemented condition (the InternalError carrying the "Unimplemented"
message) and its event trace is empty: the primary dataset is never
resolved or read. -/
theorem warp_detail_mask_requires_mask_dataset
    (env : GeoEnv) (ds : String) (sz : Size2) :
    warpDetailMask env ds none sz
      = ([], .error (.internalError
          "Unimplemented: TODO: generate metatile from data.")) := rfl

/-- C3: TmsRasterSynthetic change classification: differing masks are an
unsafe change regardless of any other field, equal masks with differing
formats are a safe change, and otherwise the common classification
decides. -/
theorem tms_raster_synthetic_changed
    (C M : Type) [DecidableEq M] (commonChanged : C → C → Changed)
    (a b : TmsRasterSynthetic C M) :
    (a.mask ≠ b.mask →
      TmsRasterSynthetic.changed_impl commonChanged a b = .yes)
    ∧ (a.mask = b.mask → a.format ≠ b.format →
      TmsRasterSynthetic.changed_impl commonChanged a b = .safely)
    ∧ (a.mask = b.mask → a.format = b.format →
      TmsRasterSynthetic.changed_impl commonChanged a b
        = commonChanged a.common b.common) := by
  refine ⟨?_, ?_, ?_⟩
  · intro h
    simp [TmsRasterSynthetic.changed_impl, h]
  · intro h1 h2
    simp [TmsRasterSynthetic.changed_impl, h1, h2]
  · intro h1 h2
    simp [TmsRasterSynthetic.changed_impl, h1, h2]

/-- Witness for C3: concrete definitions differing in mask presence are an
unsafe change, differing only in format a safe change, and identical ones
fall back to the common classification. -/
theorem tms_raster_synthetic_changed_witness :
    TmsRasterSynthetic.changed_impl commonNo tmsA tmsB = .yes
    ∧ TmsRasterSynthetic.changed_impl commonNo tmsA tmsC = .safely
    ∧ TmsRasterSynthetic.changed_impl commonNo tmsA tmsA = .no :=
  ⟨(tms_raster_synthetic_changed Unit Nat commonNo tmsA tmsB).1 (by decide)
   , (tms_raster_synthetic_changed Unit Nat commonNo tmsA tmsC).2.1
       rfl (by decide)
   , ((tms_raster_synthetic_changed Unit Nat commonNo tmsA tmsA).2.2
       rfl rfl).trans rfl⟩

/-- C4: the GeodataMesh constructor makes the generator ready exactly when
no change is enforced, the persisted metadata loads, and the recorded
fileSize equals the actual artifact size; in every other case it stays
unprepared (the constructor never reaches any other state). -/
theorem geodata_mesh_ctor_ready_iff (env : GeodataMesh.CtorEnv) :
    (GeodataMesh.ctorState env = .ready ↔
      env.changeEnforced = false
        ∧ ∃ metadata, env.loadMetadata = some metadata
            ∧ env.dataFileSize = some metadata.fileSize)
    ∧ (GeodataMesh.ctorState env = .ready
        ∨ GeodataMesh.ctorState env = .unprepared) := by
  obtain ⟨ce, lm, dfs⟩ := env
  cases ce
  · cases lm with
    | none => simp [GeodataMesh.ctorState]
    | some metadata =>
        cases dfs with
        | none => simp [GeodataMesh.ctorState]
        | some actualSize =>
            by_cases hsz : actualSize = metadata.fileSize
            · subst hsz
              simp [GeodataMesh.ctorState]
            · simp [GeodataMesh.ctorState, hsz]
  · simp [GeodataMesh.ctorState]

/-- C5: a metatile request whose tile id is absent from the tile index (on
a non-aborted sink) delivers NotFound to the sink and returns; the
metatile computation (DEM warping) is never reached. -/
theorem metatile_outside_index_not_found
    (env : GeodataSemanticTiled.MetaEnv) (tileId : TileId)
    (h1 : env.aborted = false) (h2 : env.metaIndex tileId = false) :
    GeodataSemanticTiled.generateMetatile env tileId
      = [.checkAborted, .sinkError "Metatile not found."]
    ∧ GeodataSemanticTiled.MetaEv.metatileFromDem
        ∉ GeodataSemanticTiled.generateMetatile env tileId := by
  constructor
  · simp [GeodataSemanticTiled.generateMetatile, h1, h2]
  · simp [GeodataSemanticTiled.generateMetatile, h1, h2]

/-- Witness for C5: the concrete environment with an empty tile index. -/
theorem metatile_outside_index_not_found_witness :
    GeodataSemanticTiled.generateMetatile metaEnvW ⟨3, 1, 2⟩
      = [.checkAborted, .sinkError "Metatile not found."]
    ∧ GeodataSemanticTiled.MetaEv.metatileFromDem
        ∉ GeodataSemanticTiled.generateMetatile metaEnvW ⟨3, 1, 2⟩ :=
  metatile_outside_index_not_found metaEnvW ⟨3, 1, 2⟩ rfl rfl

/-- C6: every successfully warped image is a matrix of exactly the
requested target size, its element type is 8 bits per channel with the
channel count of the warped source data, and its arena block is exactly
sizeof(cv::Mat) + height * width * elemSize bytes. -/
theorem warp_image_result_shape
    (env : GeoEnv) (ds : String) (mdOpt : Option String)
    (sz : Size2) (rs : Resampling) (tile : CvMat)
    (h : (warpImage env ds mdOpt sz rs).2 = .ok tile) :
    tile.rows = sz.height ∧ tile.cols = sz.width
    ∧ tile.matType = ⟨.u8, env.cdataChannels ds⟩
    ∧ tile.matType.elemSize = env.cdataChannels ds
    ∧ tile.blockSize
        = sizeofCvMat + sz.height * sz.width * tile.matType.elemSize := by
  simp only [warpImage] at h
  split at h
  · simp at h
  · split at h
    · simp at h
    · simp only [Except.ok.injEq] at h
      subst h
      refine ⟨rfl, rfl, rfl, Nat.one_mul _, ?_⟩
      show sizeofCvMat + sz.width * sz.height
            * (CV_MAKETYPE CvDepth.u8 (env.cdataChannels ds)).elemSize
          = sizeofCvMat + sz.height * sz.width
            * (CV_MAKETYPE CvDepth.u8 (env.cdataChannels ds)).elemSize
      ring

/-- Witness for C6: a successful concrete image warp (dataset "a", no mask,
4x3 target, three channels) has the stated shape and block size. -/
theorem warp_image_result_shape_witness :
    (warpImage envW "a" none ⟨4, 3⟩ .nearest).2
      = .ok ⟨3, 4, ⟨.u8, 3⟩, 132⟩
    ∧ ((3 : Nat) = 3 ∧ (4 : Nat) = 4
        ∧ (⟨.u8, 3⟩ : CvType) = ⟨.u8, envW.cdataChannels "a"⟩
        ∧ (⟨.u8, 3⟩ : CvType).elemSize = envW.cdataChannels "a"
        ∧ (132 : Nat)
            = sizeofCvMat + 3 * 4 * (⟨.u8, 3⟩ : CvType).elemSize) :=
  ⟨by decide
   , warp_image_result_shape envW "a" none ⟨4, 3⟩ .nearest
       ⟨3, 4, ⟨.u8, 3⟩, 132⟩ (by decide)⟩

/-- C7: a detail-mask warp with a mask dataset resolves the mask dataset
(with mask support) and warps it with the averaging resampling method,
whatever resampling the request carries, and the result is a single
double-precision channel matrix of the requested target size copied into a
fresh arena block (header plus height * width * 8 bytes). -/
theorem warp_detail_mask_average_single_double
    (env : GeoEnv) (ds md : String) (sz : Size2) (rs : Resampling) :
    warp env ⟨.detailMask, ds, some md, sz, rs⟩
      = .result [.resolveMask md, .warpInto md .average]
          (.ok ⟨sz.height, sz.width, ⟨.f64, 1⟩
                , sizeofCvMat + sz.area * 8⟩) := by
  simp only [warp, warpDetailMask]
  rw [env.maskSingleDouble md]
  simp [allocateMat, CvType.elemSize, CvDepth.elemSize1]

/-- C8: file-request routing of the geodata generators: config, definition,
style, support and registry are answered synchronously on the sink with an
empty returned Task; geo (both generators) and metatile (tiled generator
only) return a non-empty deferred Task performing the computation; every
other kind — the unknown kind, and metatile on the non-tiled mesh
generator — delivers NotFound to the sink. -/
theorem geodata_generate_file_routing (styleFromFile : Bool) :
    (GeodataSemanticTiled.generateFile styleFromFile .geo
      = ([], some .geodata))
    ∧ (GeodataSemanticTiled.generateFile styleFromFile .metatile
      = ([], some .metatile))
    ∧ (GeodataSemanticTiled.generateFile styleFromFile .config
      = ([.content], none))
    ∧ (GeodataSemanticTiled.generateFile styleFromFile .definition
      = ([.content], none))
    ∧ (GeodataSemanticTiled.generateFile styleFromFile .style
      = ([.content], none))
    ∧ (GeodataSemanticTiled.generateFile styleFromFile .support
      = ([.content], none))
    ∧ (GeodataSemanticTiled.generateFile styleFromFile .registry
      = ([.content], none))
    ∧ (GeodataSemanticTiled.generateFile styleFromFile .unknown
      = ([.errorNotFound "Not Found."], none))
    ∧ (GeodataMesh.generateFile styleFromFile .geo = ([], some .geodata))
    ∧ (GeodataMesh.generateFile styleFromFile .config
      = ([.content], none))
    ∧ (GeodataMesh.generateFile styleFromFile .definition
      = ([.content], none))
    ∧ (GeodataMesh.generateFile styleFromFile .style
      = ([.content], none))
    ∧ (GeodataMesh.generateFile styleFromFile .support
      = ([.content], none))
    ∧ (GeodataMesh.generateFile styleFromFile .registry
      = ([.content], none))
    ∧ (GeodataMesh.generateFile styleFromFile .metatile
      = ([.errorNotFound "Not Found."], none))
    ∧ (GeodataMesh.generateFile styleFromFile .unknown
      = ([.errorNotFound "Not Found."], none)) := by
  cases styleFromFile <;> decide

/-- Counterexample to C9 as stated: at the concrete request with the
custom operation the dispatcher does not raise an internal error
condition — the statement after the switch is a bare `throw;` with no
active exception, so the process terminates. -/
theorem warp_dispatch_custom_terminates :
    warp envW reqCustomW = .terminate := rfl

/-- C9 (amended): for the image, mask and detailMask operations the
dispatcher returns the corresponding operation's result from inside the
switch (the statement after the switch is unreachable); if the switch
falls through (the custom operation), the dispatcher executes a bare
rethrow with no active exception, terminating the process instead of
raising an internal error. -/
theorem warp_dispatch (env : GeoEnv) (req : GdalWarper.RasterRequest) :
    (req.operation = .image →
      warp env req
        = .result (warpImage env req.dataset req.mask req.size
                    req.resampling).1
            (warpImage env req.dataset req.mask req.size req.resampling).2)
    ∧ (req.operation = .mask →
      warp env req
        = .result (warpMask env req.dataset req.mask req.size
                    req.resampling).1
            (warpMask env req.dataset req.mask req.size req.resampling).2)
    ∧ (req.operation = .detailMask →
      warp env req
        = .result (warpDetailMask env req.dataset req.mask req.size).1
            (warpDetailMask env req.dataset req.mask req.size).2)
    ∧ (req.operation = .custom → warp env req = .terminate) := by
  refine ⟨?_, ?_, ?_, ?_⟩ <;> intro h <;> simp [warp, h]

/-- Witness for C9 (amended): each operation evaluated at a concrete
request. -/
theorem warp_dispatch_witness :
    warp envW reqImageW
      = .result (warpImage envW "a" none ⟨2, 2⟩ .nearest).1
          (warpImage envW "a" none ⟨2, 2⟩ .nearest).2
    ∧ warp envW reqMaskW
      = .result (warpMask envW "a" none ⟨2, 2⟩ .nearest).1
          (warpMask envW "a" none ⟨2, 2⟩ .nearest).2
    ∧ warp envW reqDetailW
      = .result (warpDetailMask envW "a" (some "m") ⟨2, 2⟩).1
          (warpDetailMask envW "a" (some "m") ⟨2, 2⟩).2
    ∧ warp envW ⟨.custom, "z", some "m", ⟨1, 1⟩, .average⟩ = .terminate :=
  ⟨(warp_dispatch envW reqImageW).1 rfl
   , (warp_dispatch envW reqMaskW).2.1 rfl
   , (warp_dispatch envW reqDetailW).2.2.1 rfl
   , (warp_dispatch envW ⟨.custom, "z", some "m", ⟨1, 1⟩, .average⟩).2.2.2
       rfl⟩

/-- C10: building and re-parsing GeodataMesh metadata is the identity on
extents and fileSize whenever fileSize is representable as a signed int;
for the concrete metadata of a 2^32-byte artifact the cast to int in the
build step wraps to 0, so the round-trip yields fileSize 0 instead of
2^32 — the restart-time size validation cannot distinguish such artifacts
from empty ones. -/
theorem geodata_mesh_metadata_roundtrip :
    (∀ m : GeodataMesh.Metadata, m.fileSize < 2 ^ 31 →
      GeodataMesh.parse (GeodataMesh.build m) = .ok m)
    ∧ metaBig.fileSize = 2 ^ 32
    ∧ GeodataMesh.parse (GeodataMesh.build metaBig)
        = .ok { metaBig with fileSize := 0 }
    ∧ (0 : Nat) ≠ metaBig.fileSize := by
  refine ⟨?_, rfl, by decide, by decide⟩
  intro m h
  have h32 : m.fileSize % 2 ^ 32 = m.fileSize :=
    Nat.mod_eq_of_lt (h.trans (by norm_num))
  have hint : GeodataMesh.intOfSizeT m.fileSize = (m.fileSize : Int) := by
    unfold GeodataMesh.intOfSizeT
    simp only [h32]
    rw [if_pos h]
  simp [GeodataMesh.parse, GeodataMesh.build, GeodataMesh.getMember
        , GeodataMesh.hasMember, GeodataMesh.checkArray
        , GeodataMesh.asDouble, GeodataMesh.getSizeT
        , GeodataMesh.positionFromJson, GeodataMesh.defaultPosition
        , hint, List.lookup]
  rfl

/-- Witness for C10: the round-trip identity evaluated at a concrete
metadata value with in-range fileSize. -/
theorem geodata_mesh_metadata_roundtrip_witness :
    GeodataMesh.parse (GeodataMesh.build metaSmall) = .ok metaSmall :=
  geodata_mesh_metadata_roundtrip.1 metaSmall (by decide)

end MapProxy
